import Mathlib

/-!
Verification of the `dadl_site` lab-website application.

The development shallowly embeds the Python sources (`models.py`, `app.py`,
`admin_views.py`) in Lean: each SQLAlchemy model becomes a structure, each
route or admin hook becomes a pure function, and external library behaviour
(the BibTeX loader, the password-hash primitives, the file system) is made an
explicit input or an idealized computable definition, noted at each site.
-/

namespace DadlSite

/-! ## Python-level helpers

Small computable models of Python built-ins used by the sources. -/

/-- Truthiness of a Python optional string: `None` and the empty string are
falsy, every other string is truthy. -/
def strTruthy : Option String → Bool
  | none => false
  | some s => !(s == "")

/-- Whitespace stripping on both ends, as `int(str)` performs before
conversion. -/
def trimWs (l : List Char) : List Char :=
  ((l.dropWhile Char.isWhitespace).reverse.dropWhile Char.isWhitespace).reverse

/-- Value of a nonempty all-digit character run, `none` otherwise. -/
def digitsVal (l : List Char) : Option Nat :=
  if l.isEmpty || !l.all Char.isDigit then none
  else some (l.foldl (fun n c => n * 10 + (c.toNat - Char.toNat '0')) 0)

/-- Model of the Python built-in `int(str)` on ASCII input: surrounding
whitespace is stripped, an optional sign is allowed, and the rest must be a
nonempty run of decimal digits; otherwise the call raises `ValueError`,
modelled as `none`.  (Numeric-grouping underscores and non-ASCII digits,
which Python also accepts, do not occur in the inputs considered here and
are not modelled.) -/
def pyInt (s : String) : Option Int :=
  match trimWs s.toList with
  | [] => none
  | c :: rest =>
    if c = '-' then (digitsVal rest).map (fun n => -(n : Int))
    else if c = '+' then (digitsVal rest).map (fun n => (n : Int))
    else (digitsVal (c :: rest)).map (fun n => (n : Int))

/-! ## BibTeX entries (external library `bibtexparser`)

`Publication.parse_bibtex` calls `bibtexparser.loads(self.bibtex)`.  The
library is external to the repository, so its outcome on the raw text is an
explicit input of the model: either the call raises, or it returns a list of
entries, each entry a string-keyed dictionary (modelled as an association
list, `dict.get` looking up the first matching key). -/

/-- One parsed BibTeX entry: a field dictionary. -/
abbrev BibEntry : Type := List (String × String)

/-- Python `entry.get(key, default)`. -/
def entryGet (e : BibEntry) (k : String) (d : String) : String :=
  match e.find? (fun p => p.1 == k) with
  | some p => p.2
  | none => d

/-- Python `entry.get(key)` with no default: `None` when the key is absent. -/
def entryGet? (e : BibEntry) (k : String) : Option String :=
  (e.find? (fun p => p.1 == k)).map (fun p => p.2)

/-- Outcome of `bibtexparser.loads` on the raw citation text: the call either
raises or yields the list of parsed entries. -/
inductive LoadsResult where
  | raises
  | ok (entries : List BibEntry)

/-! ## `models.py`: the `Publication` model -/

/-- `Publication` (models.py).  Nullable columns are `Option`; `citations`
defaults to 0 and `is_featured` to `False`. -/
structure Publication where
  id : Nat
  bibtex : String
  title : Option String := none
  authors : Option String := none
  venue : Option String := none
  year : Option Int := none
  url : Option String := none
  google_scholar_url : Option String := none
  citations : Int := 0
  is_featured : Bool := false
deriving Repr, DecidableEq

/-- `title.replace('{', '').replace('}', '')` from `parse_bibtex`: both
patterns are single characters replaced by nothing, so the two sequential
replaces delete every brace character. -/
def stripBraces (s : String) : String :=
  String.mk (s.toList.filter (fun c => c ≠ '\x7b' && c ≠ '\x7d'))

/-- `entry.get('booktitle') or entry.get('journal', '')`: Python `or` takes
the booktitle when it is truthy (present and nonempty), else the journal
with default `''`. -/
def venueOf (e : BibEntry) : String :=
  match entryGet? e "booktitle" with
  | some v => if v == "" then entryGet e "journal" "" else v
  | none => entryGet e "journal" ""

/-- The body of `Publication.parse_bibtex` inside its `try:` block, statement
by statement.  Python mutates `self` in place, so when a statement raises the
assignments already executed stay; the `Except` error therefore carries the
record state at the raise point.  Raise points are `bibtexparser.loads`
itself and `int(entry.get('year', 0))` on a truthy non-numeric year. -/
def parseBibtexBody (pub : Publication) (r : LoadsResult) : Except Publication Publication :=
  match r with
  | .raises => .error pub
  | .ok [] => .ok pub
  | .ok (entry :: _) =>
    let pub := { pub with title := some (stripBraces (entryGet entry "title" "")) }
    let pub := { pub with authors := some (entryGet entry "author" "") }
    let pub := { pub with venue := some (venueOf entry) }
    match entryGet? entry "year" with
    | some ys =>
      if ys == "" then
        let pub := { pub with year := none }
        .ok { pub with url := some (entryGet entry "url" "") }
      else
        match pyInt ys with
        | none => .error pub
        | some y =>
          let pub := { pub with year := some y }
          .ok { pub with url := some (entryGet entry "url" "") }
    | none =>
      let pub := { pub with year := none }
      .ok { pub with url := some (entryGet entry "url" "") }

/-- `Publication.parse_bibtex` (models.py): the whole body is wrapped in
`try: ... except Exception as e: print(...)`, so a raise is swallowed and the
record keeps the state reached at the raise point. -/
def parse_bibtex (pub : Publication) (r : LoadsResult) : Publication :=
  match parseBibtexBody pub r with
  | .ok p => p
  | .error p => p

/-- Whether the parse raised at some point (the except branch ran). -/
def parseFailed (pub : Publication) (r : LoadsResult) : Bool :=
  match parseBibtexBody pub r with
  | .error _ => true
  | .ok _ => false

/-- `PublicationModelView.on_model_change` (admin_views.py): re-parse on every
save; the inherited hook is a no-op, so the save is exactly the re-parse and
always completes (the except inside `parse_bibtex` swallows any raise). -/
def publication_on_model_change (pub : Publication) (r : LoadsResult) : Publication :=
  parse_bibtex pub r

/-! ## `models.py`: the `Student` model -/

/-- `Student` (models.py).  `degree_type` is a plain string column (the
PhD/Masters choice is enforced only by the admin form); `is_current` is a
nullable Boolean column (`default=True` applies only when the insert omits
it), hence `Option Bool`. -/
structure Student where
  id : Nat
  name : String
  degree_type : String
  research_focus : Option String := none
  school : String
  start_date : Option String := none
  end_date : Option String := none
  photo : Option String := none
  is_current : Option Bool := some true
  thesis_title : Option String := none
  current_work : Option String := none
  linkedin : Option String := none
  website : Option String := none
  google_scholar : Option String := none
  email : Option String := none
deriving Repr, DecidableEq

/-- The row predicate of `filter_by(is_current=cur, degree_type=deg)`:
SQL equality, under which a NULL `is_current` matches neither `True` nor
`False`. -/
def studentPred (cur : Bool) (deg : String) (s : Student) : Bool :=
  s.is_current == some cur && s.degree_type == deg

/-- `Student.query.filter_by(is_current=..., degree_type=...).all()`
(app.py, `home`). -/
def filterStudents (db : List Student) (cur : Bool) (deg : String) : List Student :=
  db.filter (studentPred cur deg)

/-- `current_phd` in `home()` (app.py line 80). -/
def current_phd (db : List Student) : List Student := filterStudents db true "PhD"

/-- `current_masters` in `home()` (app.py line 81). -/
def current_masters (db : List Student) : List Student := filterStudents db true "Masters"

/-- `former_phd` in `home()` (app.py line 82). -/
def former_phd (db : List Student) : List Student := filterStudents db false "PhD"

/-- `former_masters` in `home()` (app.py line 83). -/
def former_masters (db : List Student) : List Student := filterStudents db false "Masters"

/-- A student row matched by one of the four `home()` queries: non-NULL
`is_current` and a degree type that the admin form would have produced. -/
def coverable (s : Student) : Bool :=
  s.is_current.isSome && (s.degree_type == "PhD" || s.degree_type == "Masters")

/-! ## `app.py` `home()`: featured publications -/

/-- Sort key of `Publication.year.desc()` under SQLite: NULL sorts below
every value, so with `⊥` for NULL a descending sort puts NULL years last. -/
def yearKey (p : Publication) : WithBot Int :=
  match p.year with
  | none => (⊥ : WithBot Int)
  | some y => (y : WithBot Int)

/-- `p` precedes `q` in the `year.desc()` order. -/
def pubDescOrder (p q : Publication) : Prop := yearKey q ≤ yearKey p

instance : DecidableRel pubDescOrder :=
  fun p q => inferInstanceAs (Decidable (yearKey q ≤ yearKey p))

instance : IsTotal Publication pubDescOrder :=
  ⟨fun p q => le_total (yearKey q) (yearKey p)⟩

instance : IsTrans Publication pubDescOrder :=
  ⟨fun _ _ _ hpq hqr => le_trans hqr hpq⟩

/-- `Publication.query.filter_by(is_featured=True).order_by(Publication.year.desc()).limit(5).all()`
(app.py line 90), with the sort realized as an insertion sort over the
descending-year order. -/
def featured_publications (db : List Publication) : List Publication :=
  (List.insertionSort pubDescOrder (db.filter (fun p => p.is_featured))).take 5

/-! ## `models.py`: `AdminUser` and password hashing

`generate_password_hash` / `check_password_hash` come from
`werkzeug.security`, external to the repository.  Modelled from the spec:
the spec requires a salted one-way hash comparison (never plaintext
equality); the one-way digest is idealized as collision-free, keeping the
salt explicit. -/

/-- A stored password hash: the salt chosen at generation time plus the
digest of (salt, password). -/
structure PWHash where
  salt : String
  digest : String
deriving Repr, DecidableEq

/-- Modelled from the spec: `werkzeug.security.generate_password_hash`.  The
salt is an explicit input (werkzeug draws it at random); the idealized
digest records the hashed password, standing in for a collision-free one-way
function. -/
def generate_password_hash (salt password : String) : PWHash :=
  ⟨salt, password⟩

/-- Modelled from the spec: `werkzeug.security.check_password_hash`
recomputes the digest with the stored salt and compares. -/
def check_password_hash (h : PWHash) (password : String) : Bool :=
  (generate_password_hash h.salt password).digest == h.digest

/-- `AdminUser` (models.py). -/
structure AdminUser where
  id : Nat
  username : String
  password_hash : PWHash
  name : String := "Administrator"
deriving Repr, DecidableEq

/-- `AdminUser.set_password` (models.py lines 19-20). -/
def AdminUser.set_password (u : AdminUser) (salt password : String) : AdminUser :=
  { u with password_hash := generate_password_hash salt password }

/-- `AdminUser.check_password` (models.py lines 22-23). -/
def AdminUser.check_password (u : AdminUser) (password : String) : Bool :=
  check_password_hash u.password_hash password

/-! ## `app.py`: the `/admin-login` route -/

/-- `AdminUser.query.filter_by(username=username).first()`. -/
def findUser (db : List AdminUser) (u : String) : Option AdminUser :=
  db.find? (fun a => a.username == u)

/-- The request data `admin_login` reads: the method, the two form fields
(`None` when absent from the form) and the `next` query argument. -/
structure LoginRequest where
  isPost : Bool
  username : Option String
  password : Option String
  nextArg : Option String
deriving Repr, DecidableEq

/-- What the route hands back: a redirect or a rendered template, each with
the flashed `(category, message)` pairs of this request. -/
inductive LoginResult where
  | redirect (url : String) (flashes : List (String × String))
  | render (template : String) (flashes : List (String × String))
deriving Repr, DecidableEq

/-- `url_for('admin.index')`. -/
def adminIndexUrl : String := "/admin/"

/-- `admin_login` (app.py lines 103-127), branch for branch: an
authenticated caller is redirected at once; a POST with a missing or empty
field flashes the both-fields message; otherwise the user is looked up and
the password checked, a success logging in and redirecting to `next` (or the
admin index when `next` is absent or empty), both failure shapes flashing
one identical message and falling through to the login template. -/
def admin_login (authenticated : Bool) (db : List AdminUser) (req : LoginRequest) :
    LoginResult :=
  if authenticated then .redirect adminIndexUrl []
  else if req.isPost then
    if !strTruthy req.username || !strTruthy req.password then
      .render "admin_login.html" [("error", "Please enter both username and password.")]
    else
      match findUser db (req.username.getD "") with
      | some a =>
        if a.check_password (req.password.getD "") then
          .redirect (match req.nextArg with
                      | some n => if n == "" then adminIndexUrl else n
                      | none => adminIndexUrl)
            [("success", "Welcome back, " ++ a.name ++ "!")]
        else
          .render "admin_login.html"
            [("error", "Invalid username or password. Please try again.")]
      | none =>
        .render "admin_login.html"
          [("error", "Invalid username or password. Please try again.")]
  else .render "admin_login.html" []

/-! ## `admin_views.py`: authentication gate on the admin views -/

/-- Response of an admin view dispatch. -/
inductive AdminResponse where
  | redirect (url : String)
  | content (body : String)
deriving Repr, DecidableEq

/-- `url_for('admin_login', next=request.url)`. -/
def loginRedirectUrl (requestUrl : String) : String :=
  "/admin-login?next=" ++ requestUrl

/-- `AuthenticatedModelView.is_accessible` / `MyAdminIndexView.is_accessible`
(admin_views.py): `current_user.is_authenticated`. -/
def is_accessible (authenticated : Bool) : Bool := authenticated

/-- `inaccessible_callback` of both view classes (admin_views.py lines 24-25
and 31-32): redirect to the login route carrying the requested URL. -/
def inaccessible_callback (requestUrl : String) : AdminResponse :=
  .redirect (loginRedirectUrl requestUrl)

/-- Flask-Admin dispatch of a CRUD view of `AuthenticatedModelView`: the
view body (`body`) is rendered only when `is_accessible` holds, otherwise
`inaccessible_callback` answers. -/
def adminViewHandle (authenticated : Bool) (requestUrl : String) (body : String) :
    AdminResponse :=
  if is_accessible authenticated then .content body
  else inaccessible_callback requestUrl

/-- Flask-Admin dispatch of `MyAdminIndexView.index`: same gate, the body
being the statistics page the `index` method renders. -/
def adminIndexHandle (authenticated : Bool) (requestUrl : String) (statsPage : String) :
    AdminResponse :=
  if is_accessible authenticated then .content statsPage
  else inaccessible_callback requestUrl

/-! ## `admin_views.py`: photo handling on update

The save path of a record with an `ImageUploadField` is Flask-Admin's
`ModelView.update_model`: it runs `form.populate_obj(model)` FIRST — and
`FileUploadField.populate_obj` itself deletes the superseded stored file
before saving a newly uploaded one and writing its name into the column —
and only then calls the view's `on_model_change`.  So by the time
`ProfessorModelView.on_model_change` reads `model.photo`, the column
already holds the new filename.  An upload directory is modelled as the
list of filenames it holds; thumbnails (`ImageUploadField` deletes the
superseded thumbnail alongside the main file) are not tracked
separately. -/

/-- `os.remove` guarded by `os.path.exists` / flask-admin `_delete_file`. -/
def deleteFile (fs : List String) (f : String) : List String :=
  if f ∈ fs then fs.filter (fun g => g ≠ f) else fs

/-- Writing a file (create or overwrite): flask-admin `_save_file`. -/
def saveFile (fs : List String) (f : String) : List String :=
  f :: fs.filter (fun g => g ≠ f)

/-- `form.photo.data` as `populate_obj` and `on_model_change` see it after
form processing.  WTForms first sets the field data to the object's current
column value (a string); `FileUploadField.process_formdata` then replaces
it by the uploaded `FileStorage` when a file with a nonempty name was
submitted, or by `None` when the delete checkbox was ticked; with no new
upload the current filename string simply stays. -/
inductive UploadData where
  | noneData
  | keptString (s : String)
  | fileStorage (filename : String)
deriving Repr, DecidableEq

/-- The Python comparison `old_photo != form.photo.data` for a truthy
string `old_photo`: a `str` never equals `None`, and never equals a
`FileStorage` (no cross-type `__eq__`), so only the kept-string case
compares contents. -/
def pyStrNeData (s : String) (d : UploadData) : Bool :=
  match d with
  | .noneData => true
  | .keptString t => !(s == t)
  | .fileStorage _ => true

/-- `FileUploadField.populate_obj` (flask-admin `form/upload.py`, stable
documented behaviour), on one image column and its upload directory: when
the stored value is truthy and deletion was requested, the stored file is
removed and the column cleared; else, when the data is a `FileStorage`
with a nonempty (generated) filename, the superseded stored file is
removed, the new file saved, and the column set to its name; otherwise
nothing happens (a kept filename string fails the `isinstance`
check). -/
def imageUploadField_populate_obj (shouldDelete : Bool) (data : UploadData)
    (field : Option String) (fs : List String) : Option String × List String :=
  if strTruthy field && shouldDelete then
    (none, deleteFile fs (field.getD ""))
  else
    match data with
    | .noneData => (field, fs)
    | .keptString _ => (field, fs)
    | .fileStorage newName =>
      if newName == "" then (field, fs)
      else
        (some newName,
          saveFile (if strTruthy field then deleteFile fs (field.getD "") else fs) newName)

/-- `ProfessorModelView.on_model_change` (admin_views.py lines 77-86),
exactly as written — but note Flask-Admin calls it AFTER `populate_obj`,
so `modelPhoto` is the already-updated column value and `photoData` the
processed form data. -/
def professor_on_model_change (form_has_photo : Bool) (photoData : UploadData)
    (modelPhoto : Option String) (is_created : Bool) (fs : List String) : List String :=
  if !is_created && form_has_photo then
    if strTruthy modelPhoto && pyStrNeData (modelPhoto.getD "") photoData then
      deleteFile fs (modelPhoto.getD "")
    else fs
  else fs

/-- `StudentModelView` (admin_views.py lines 89-125) defines no
`on_model_change`: the inherited hook is a no-op (`pass`).  File deletion
in the Student save path happens earlier, inside
`imageUploadField_populate_obj` — see `student_update_model`. -/
def student_on_model_change (fs : List String) : List String := fs

/-- `ProjectModelView` (admin_views.py lines 127-196) defines no
`on_model_change`: the inherited hook is a no-op (`pass`).  File deletion
in the Project save path happens earlier, inside
`imageUploadField_populate_obj` — see `project_update_model`. -/
def project_on_model_change (fs : List String) : List String := fs

/-- Flask-Admin `ModelView.update_model` for `ProfessorModelView`,
restricted to the photo column and the professor upload directory:
`populate_obj` (the upload field runs, with the form carrying the photo
field), then the custom `on_model_change`, then commit.  Returns the
committed column value and the directory contents. -/
def professor_update_model (shouldDelete : Bool) (data : UploadData)
    (storedPhoto : Option String) (fs : List String) : Option String × List String :=
  let popd := imageUploadField_populate_obj shouldDelete data storedPhoto fs
  (popd.1, professor_on_model_change true data popd.1 false popd.2)

/-- Flask-Admin `ModelView.update_model` for `StudentModelView`,
restricted to the photo column and the student upload directory: only the
upload field acts, the inherited hook being a no-op. -/
def student_update_model (shouldDelete : Bool) (data : UploadData)
    (storedPhoto : Option String) (fs : List String) : Option String × List String :=
  let popd := imageUploadField_populate_obj shouldDelete data storedPhoto fs
  (popd.1, student_on_model_change popd.2)

/-- Flask-Admin `ModelView.update_model` for `ProjectModelView`,
restricted to one image column (all four are configured identically) and
the project upload directory: only the upload field acts, the inherited
hook being a no-op. -/
def project_update_model (shouldDelete : Bool) (data : UploadData)
    (storedImage : Option String) (fs : List String) : Option String × List String :=
  let popd := imageUploadField_populate_obj shouldDelete data storedImage fs
  (popd.1, project_on_model_change popd.2)

/-! ## `app.py`: `create_default_data`

The bootstrap builds each model instance through the SQLAlchemy declarative
constructor, which raises `TypeError` as soon as a keyword argument does not
name a mapped attribute of the class.  The mapped-attribute lists below are
transcribed from the class bodies of `models.py`; note that `focus_statement`
is commented out there (line 154) and so is NOT an attribute of `LabInfo`. -/

/-- A Python value passed as a model keyword argument in
`create_default_data`. -/
inductive PyVal where
  | str (s : String)
  | bool (b : Bool)
  | hash (h : PWHash)
deriving Repr, DecidableEq

/-- A constructed model instance: its attribute dictionary. -/
abbrev Row : Type := List (String × PyVal)

/-- Mapped attributes of `AdminUser` (models.py lines 12-17). -/
def adminUserFields : List String := ["id", "username", "password_hash", "name"]

/-- Mapped attributes of `Professor` (models.py lines 31-49). -/
def professorFields : List String :=
  ["id", "name", "title", "bio", "education", "experience", "photo", "email",
   "office", "office_hours", "phone", "google_scholar", "linkedin", "website", "orcid"]

/-- Mapped attributes of `Student` (models.py lines 54-78), with the
`projects` backref from `Project.members`. -/
def studentFields : List String :=
  ["id", "name", "degree_type", "research_focus", "school", "start_date",
   "end_date", "photo", "is_current", "thesis_title", "current_work",
   "linkedin", "website", "google_scholar", "email", "created_at", "projects"]

/-- Mapped attributes of `Project` (models.py lines 89-107). -/
def projectFields : List String :=
  ["id", "title", "topic", "overview", "status", "start_date", "end_date",
   "image1", "image2", "image3", "image4", "members", "created_at"]

/-- Mapped attributes of `LabInfo` (models.py lines 149-161); the
`focus_statement` column is commented out and absent. -/
def labInfoFields : List String :=
  ["id", "lab_name", "lab_full_name", "mission", "research_areas",
   "lab_email", "lab_address", "lab_phone"]

/-- The SQLAlchemy declarative constructor: each keyword argument must name
an attribute of the class, else `TypeError` — modelled as the error string —
is raised; otherwise the instance holds exactly the given attributes. -/
def declarativeNew (clsName : String) (fields : List String)
    (kwargs : List (String × PyVal)) : Except String Row :=
  match kwargs.find? (fun kv => !(fields.contains kv.1)) with
  | some kv => .error (kv.1 ++ " is an invalid keyword argument for " ++ clsName)
  | none => .ok kwargs

/-- Python `setattr` on a constructed instance. -/
def setAttr (row : Row) (k : String) (v : PyVal) : Row :=
  (List.filter (fun kv => kv.1 ≠ k) row) ++ [(k, v)]

/-- The emptiness facts `create_default_data` queries: whether each table
already holds a first row. -/
structure Store where
  hasAdminUser : Bool
  hasProfessor : Bool
  hasLabInfo : Bool
  hasStudent : Bool
  hasProject : Bool
deriving Repr, DecidableEq

/-- A store with no records: the first-run state. -/
def emptyStore : Store := ⟨false, false, false, false, false⟩

/-- Keyword arguments of `AdminUser(...)` (app.py lines 169-172). -/
def adminUserKwargs : List (String × PyVal) :=
  [("username", .str "admin"), ("name", .str "Lab Administrator")]

/-- Keyword arguments of `Professor(...)` (app.py lines 179-191). -/
def professorKwargs : List (String × PyVal) :=
  [("name", .str "Dr. John Smith"),
   ("title", .str "Professor and Lab Director"),
   ("bio", .str "Principal Investigator of the Data Analysis and Deep Learning Laboratory."),
   ("education", .str "Ph.D. in Computer Science from MIT (2008)"),
   ("experience", .str "Professor at University (2015-present)"),
   ("email", .str "jsmith@university.edu"),
   ("office", .str "Room 301, Computer Science Building"),
   ("office_hours", .str "Mon/Wed 2-4 PM"),
   ("google_scholar", .str "https://scholar.google.com/citations?user=XXXXXXX"),
   ("linkedin", .str "https://linkedin.com/in/drjohnsmith"),
   ("website", .str "https://www.example-university.edu/~jsmith")]

/-- Keyword arguments of `LabInfo(...)` (app.py lines 197-206) — including
`focus_statement`, which `LabInfo` no longer maps. -/
def labInfoKwargs : List (String × PyVal) :=
  [("lab_name", .str "DADL Lab"),
   ("lab_full_name", .str "Data Analysis and Deep Learning Laboratory"),
   ("focus_statement", .str "Developing innovative ML algorithms and data analysis techniques."),
   ("mission", .str "Advancing AI through research and training next-generation data scientists."),
   ("research_areas", .str "Deep Learning, Computer Vision, NLP, Reinforcement Learning"),
   ("lab_email", .str "dadl-lab@university.edu"),
   ("lab_address", .str "Computer Science Department, Room 301"),
   ("lab_phone", .str "+1 (555) 123-4567")]

/-- Keyword arguments of `Student(...)` (app.py lines 212-220). -/
def studentKwargs : List (String × PyVal) :=
  [("name", .str "Jane Doe"),
   ("degree_type", .str "PhD"),
   ("research_focus", .str "Deep Learning for Computer Vision"),
   ("school", .str "University Name"),
   ("start_date", .str "Fall 2023"),
   ("is_current", .bool true),
   ("email", .str "jane.doe@university.edu")]

/-- Keyword arguments of `Project(...)` (app.py lines 226-232). -/
def projectKwargs : List (String × PyVal) :=
  [("title", .str "Deep Learning for Medical Image Analysis"),
   ("topic", .str "Computer Vision"),
   ("overview", .str "Developing novel deep learning algorithms for automated medical diagnosis."),
   ("status", .str "Ongoing"),
   ("start_date", .str "Jan 2024")]

/-- `create_default_data` (app.py lines 164-237): for each empty table,
construct the default instance, add it to the session and print a line;
finally commit the session and print completion.  A `TypeError` from a
constructor propagates (there is no try around the body), aborting before
the commit; on success the result is the committed rows and the console
lines.  `salt` is the random salt werkzeug draws inside
`admin.set_password('changeme123')`. -/
def create_default_data (salt : String) (store : Store) :
    Except String (List (String × Row) × List String) := do
  let mut session : List (String × Row) := []
  let mut prints : List String := []
  if !store.hasAdminUser then
    let row ← declarativeNew "AdminUser" adminUserFields adminUserKwargs
    let row := setAttr row "password_hash"
      (PyVal.hash (generate_password_hash salt "changeme123"))
    session := session ++ [("admin_user", row)]
    prints := prints ++ ["Created default admin user - username: admin, password: changeme123"]
  if !store.hasProfessor then
    let row ← declarativeNew "Professor" professorFields professorKwargs
    session := session ++ [("professor", row)]
    prints := prints ++ ["Created default professor profile"]
  if !store.hasLabInfo then
    let row ← declarativeNew "LabInfo" labInfoFields labInfoKwargs
    session := session ++ [("lab_info", row)]
    prints := prints ++ ["Created default lab information"]
  if !store.hasStudent then
    let row ← declarativeNew "Student" studentFields studentKwargs
    session := session ++ [("student", row)]
    prints := prints ++ ["Created sample student"]
  if !store.hasProject then
    let row ← declarativeNew "Project" projectFields projectKwargs
    session := session ++ [("project", row)]
    prints := prints ++ ["Created sample project"]
  pure (session, prints ++ ["Default data creation complete!"])

/-! ## Helper lemmas -/

/-- When the `parse_bibtex` body raises, the state carried out keeps the
pre-parse `year` and `url` (their assignments come after every raise
point). -/
theorem parseBibtexBody_error_frame (pub p : Publication) (r : LoadsResult)
    (h : parseBibtexBody pub r = Except.error p) :
    p.year = pub.year ∧ p.url = pub.url := by
  cases r with
  | raises =>
    simp only [parseBibtexBody] at h
    injection h with h
    subst h
    exact ⟨rfl, rfl⟩
  | ok entries =>
    cases entries with
    | nil => simp [parseBibtexBody] at h
    | cons e rest =>
      simp only [parseBibtexBody] at h
      split at h
      · split at h
        · simp at h
        · split at h
          · injection h with h
            subst h
            exact ⟨rfl, rfl⟩
          · simp at h
      · simp at h

/-! ## Claim theorems -/

/-- C1: the claim states that on a first run with an empty store,
`create_default_data` seeds one default AdminUser, Professor, LabInfo,
Student and Project, commits them and prints the admin credentials.  The
code instead raises: `LabInfo(...)` is called with `focus_statement=...`
although that column is commented out of `models.py`, so the SQLAlchemy
constructor raises `TypeError` before `db.session.commit()` is ever reached
and nothing is seeded.  This theorem evaluates the bootstrap at the failing
input (the empty store, any werkzeug salt). -/
theorem c1_bootstrap_raises_on_empty_store :
    ∀ salt : String, create_default_data salt emptyStore =
      .error "focus_statement is an invalid keyword argument for LabInfo" :=
  fun _ => rfl

/-- Concrete publication for the C2 counterexample, carrying previously
parsed fields. -/
def pubC2 : Publication :=
  { id := 1, bibtex := "raw text", title := some "Old Title",
    authors := some "Old Authors", venue := some "Old Venue",
    year := some 2020, url := some "http://old.example" }

/-- A `bibtexparser.loads` outcome realizable by a well-formed entry whose
year field is the non-numeric string `20XX`: `int('20XX')` raises after the
title, author and venue assignments have already run. -/
def loadsC2 : LoadsResult :=
  .ok [[("title", "New Title"), ("author", "New Authors"),
        ("journal", "New Venue"), ("year", "20XX")]]

/-- C2 counterexample: the claim says that whenever parsing fails at any
point, ALL previously stored parsed fields keep their prior values.  At this
input the parse does fail (non-numeric year), yet the stored title has been
overwritten, because Python had already executed the title assignment when
`int` raised. -/
theorem c2_counterexample :
    parseFailed pubC2 loadsC2 = true ∧
      (parse_bibtex pubC2 loadsC2).title ≠ pubC2.title ∧
      (parse_bibtex pubC2 loadsC2).authors ≠ pubC2.authors ∧
      (parse_bibtex pubC2 loadsC2).venue ≠ pubC2.venue := by
  refine ⟨by decide, by decide, by decide, by decide⟩

/-- C2 (amended): a failed parse never raises past the save
(`parse_bibtex` always returns a record, the except swallowing the raise),
and the fields whose assignments were not yet reached keep their prior
values: `year` and `url` always do, and when `bibtexparser.loads` itself
raises every field does.  Fields assigned before the raise point (title,
authors, venue on a year-coercion failure) may be overwritten. -/
theorem c2_parse_failure_frame (pub : Publication) (r : LoadsResult)
    (h : parseFailed pub r = true) :
    (parse_bibtex pub r).year = pub.year ∧ (parse_bibtex pub r).url = pub.url ∧
      (r = .raises → parse_bibtex pub r = pub) := by
  cases hb : parseBibtexBody pub r with
  | ok q => simp [parseFailed, hb] at h
  | error p =>
    have hf := parseBibtexBody_error_frame pub p r hb
    refine ⟨?_, ?_, ?_⟩
    · simpa [parse_bibtex, hb] using hf.1
    · simpa [parse_bibtex, hb] using hf.2
    · intro hr
      subst hr
      rfl

/-- C2 witness: a concrete malformed text on which `bibtexparser.loads`
raises; the theorem applies and every parsed field survives. -/
theorem c2_parse_failure_frame_witness :
    (parse_bibtex pubC2 .raises).year = pubC2.year ∧
      (parse_bibtex pubC2 .raises).url = pubC2.url ∧
      (LoadsResult.raises = .raises → parse_bibtex pubC2 .raises = pubC2) :=
  c2_parse_failure_frame pubC2 .raises rfl

/-- Concrete publication for the C3 counterexample, with a previously
stored year. -/
def pubC3 : Publication := { id := 2, bibtex := "raw", year := some 2020 }

/-- An entry whose year field is present but non-numeric. -/
def loadsC3 : LoadsResult := .ok [[("title", "T"), ("year", "20XX")]]

/-- C3 counterexample: the claim says the year is set to none when the
entry's year field is non-numeric.  With year field `20XX` (present,
non-numeric: `pyInt` refuses it) the record's year instead keeps its prior
value `2020`, because `int('20XX')` raises and the except swallows the
raise before the assignment. -/
theorem c3_counterexample :
    entryGet? [("title", "T"), ("year", "20XX")] "year" = some "20XX" ∧
      pyInt "20XX" = none ∧
      (parse_bibtex pubC3 loadsC3).year = some 2020 := by
  refine ⟨by decide, by decide, by decide⟩

/-- C3 (amended): for the entry `parse_bibtex` processes (the first one),
the year is set to the integer value when the year field is present,
nonempty and numeric; it is set to none when the field is absent or the
empty string; when the field is present, nonempty and non-numeric the
coercion raises and the year keeps its previous value. -/
theorem c3_year_coercion (pub : Publication) (e : BibEntry) (rest : List BibEntry) :
    ((entryGet? e "year" = none ∨ entryGet? e "year" = some "") →
      (parse_bibtex pub (.ok (e :: rest))).year = none) ∧
    (∀ ys n, entryGet? e "year" = some ys → pyInt ys = some n →
      (parse_bibtex pub (.ok (e :: rest))).year = some n) ∧
    (∀ ys, entryGet? e "year" = some ys → ys ≠ "" → pyInt ys = none →
      (parse_bibtex pub (.ok (e :: rest))).year = pub.year) := by
  refine ⟨?_, ?_, ?_⟩
  · rintro (hy | hy) <;> simp [parse_bibtex, parseBibtexBody, hy]
  · intro ys n hy hn
    have hys : ¬(ys == "") = true := by
      intro hcontra
      have : ys = "" := eq_of_beq hcontra
      subst this
      simp [pyInt, trimWs, digitsVal] at hn
    simp [parse_bibtex, parseBibtexBody, hy, hys, hn]
  · intro ys hy hne hn
    have hys : ¬(ys == "") = true := fun hcontra => hne (eq_of_beq hcontra)
    simp [parse_bibtex, parseBibtexBody, hy, hys, hn]

/-- C3 witness: a numeric year `2024` lands in the record as the integer
2024; an absent year yields none; the non-numeric year `20XX` leaves a
prior year in place. -/
theorem c3_year_coercion_witness :
    ((entryGet? [("year", "2024")] "year" = none ∨
        entryGet? [("year", "2024")] "year" = some "") →
      (parse_bibtex pubC3 (.ok ([("year", "2024")] :: []))).year = none) ∧
    (∀ ys n, entryGet? [("year", "2024")] "year" = some ys → pyInt ys = some n →
      (parse_bibtex pubC3 (.ok ([("year", "2024")] :: []))).year = some n) ∧
    (∀ ys, entryGet? [("year", "2024")] "year" = some ys → ys ≠ "" → pyInt ys = none →
      (parse_bibtex pubC3 (.ok ([("year", "2024")] :: []))).year = pubC3.year) :=
  c3_year_coercion pubC3 [("year", "2024")] []

/-- C10: on a save whose BibTeX text parses successfully to a first entry
whose year field is absent or numeric (so execution reaches the url
assignment), the url column is overwritten with the entry's url value —
`entryGet` yields the empty string when the entry has no url field — and
the previously stored url is discarded: the result does not depend on it. -/
theorem c10_url_overwrite (pub : Publication) (e : BibEntry) (rest : List BibEntry)
    (h : entryGet? e "year" = none ∨
      ∃ ys n, entryGet? e "year" = some ys ∧ pyInt ys = some n) :
    (parse_bibtex pub (.ok (e :: rest))).url = some (entryGet e "url" "") := by
  rcases h with hy | ⟨ys, n, hy, hn⟩
  · simp [parse_bibtex, parseBibtexBody, hy]
  · by_cases hys : (ys == "") = true
    · simp [parse_bibtex, parseBibtexBody, hy, hys]
    · simp [parse_bibtex, parseBibtexBody, hy, hys, hn]

/-- Two of the four student-group predicates differing in the flag or the
degree reject any row the other accepts. -/
theorem studentPred_exclusive (cur1 cur2 : Bool) (deg1 deg2 : String) (s : Student)
    (hne : cur1 ≠ cur2 ∨ deg1 ≠ deg2) (h : studentPred cur1 deg1 s = true) :
    studentPred cur2 deg2 s = false := by
  unfold studentPred at h ⊢
  rw [Bool.and_eq_true] at h
  have e1 : s.is_current = some cur1 := eq_of_beq h.1
  have e2 : s.degree_type = deg1 := eq_of_beq h.2
  rcases hne with hc | hd
  · have hfalse : (s.is_current == some cur2) = false := by
      rw [e1]
      exact beq_eq_false_iff_ne.mpr (fun hh => hc (Option.some.inj hh))
    simp [hfalse]
  · have hfalse : (s.degree_type == deg2) = false := by
      rw [e2]
      exact beq_eq_false_iff_ne.mpr hd
    simp [hfalse]

/-- Concatenating the filters of two mutually exclusive predicates permutes
the filter of their disjunction. -/
theorem filter_or_perm (p q : α → Bool) (h : ∀ a, p a = true → q a = false) :
    ∀ l : List α,
      List.Perm (l.filter p ++ l.filter q) (l.filter (fun a => p a || q a))
  | [] => by simp
  | x :: xs => by
    by_cases hp : p x = true
    · have hq := h x hp
      simpa [List.filter_cons, hp, hq] using (filter_or_perm p q h xs).cons x
    · have hp' : p x = false := by simpa using hp
      by_cases hq : q x = true
      · simp only [List.filter_cons, hp', hq, Bool.false_or, if_true, if_false,
          Bool.false_eq_true]
        exact List.perm_middle.trans ((filter_or_perm p q h xs).cons x)
      · have hq' : q x = false := by simpa using hq
        simpa [List.filter_cons, hp', hq'] using filter_or_perm p q h xs

/-- The disjunction of the four group predicates is exactly `coverable`. -/
theorem studentPred_cover (s : Student) :
    (studentPred true "PhD" s ||
      (studentPred true "Masters" s ||
        (studentPred false "PhD" s || studentPred false "Masters" s))) = coverable s := by
  unfold studentPred coverable
  cases hc : s.is_current with
  | none =>
    simp [show ((none : Option Bool) == some true) = false from rfl,
      show ((none : Option Bool) == some false) = false from rfl]
  | some b =>
    cases b
    · simp [show ((some false : Option Bool) == some true) = false from rfl,
        show ((some false : Option Bool) == some false) = true from rfl]
    · simp [show ((some true : Option Bool) == some true) = true from rfl,
        show ((some true : Option Bool) == some false) = false from rfl]

/-- Concrete student whose degree type is neither PhD nor Masters (the
storage layer imposes no constraint). -/
def mscStudent : Student :=
  { id := 7, name := "Casey", degree_type := "MSc", school := "University Name" }

/-- A database state containing only that student. -/
def studentDbC4 : List Student := [mscStudent]

/-- C4 counterexample: the claim says the four student groups of `home()`
cover every stored Student record.  A stored student with degree type
`MSc` — expressible because `degree_type` is a plain string column — lands
in none of the four groups, so the union does not cover the store. -/
theorem c4_counterexample :
    mscStudent ∈ studentDbC4 ∧
      mscStudent ∉ current_phd studentDbC4 ∧
      mscStudent ∉ current_masters studentDbC4 ∧
      mscStudent ∉ former_phd studentDbC4 ∧
      mscStudent ∉ former_masters studentDbC4 := by
  refine ⟨by decide, by decide, by decide, by decide, by decide⟩

/-- C4 (amended): the four student groups of `home()` are pairwise
disjoint, and together they are a permutation of exactly the stored
students whose `is_current` is non-NULL and whose degree type is `PhD` or
`Masters` (the `coverable` rows) — each such record appearing exactly once
across the groups; a record outside that set (possible, since neither
constraint is enforced by storage) appears in no group. -/
theorem c4_home_partition (db : List Student) :
    (∀ s : Student,
      (s ∈ current_phd db →
        s ∉ current_masters db ∧ s ∉ former_phd db ∧ s ∉ former_masters db) ∧
      (s ∈ current_masters db → s ∉ former_phd db ∧ s ∉ former_masters db) ∧
      (s ∈ former_phd db → s ∉ former_masters db)) ∧
    List.Perm
      (current_phd db ++ (current_masters db ++ (former_phd db ++ former_masters db)))
      (db.filter coverable) := by
  constructor
  · intro s
    have excl : ∀ cur1 cur2 deg1 deg2, (cur1 ≠ cur2 ∨ deg1 ≠ deg2) →
        s ∈ filterStudents db cur1 deg1 → s ∉ filterStudents db cur2 deg2 := by
      intro cur1 cur2 deg1 deg2 hne h1 h2
      have hp1 : studentPred cur1 deg1 s = true := List.of_mem_filter h1
      have hp2 : studentPred cur2 deg2 s = true := List.of_mem_filter h2
      rw [studentPred_exclusive cur1 cur2 deg1 deg2 s hne hp1] at hp2
      exact Bool.false_ne_true hp2
    exact ⟨fun h => ⟨excl true true "PhD" "Masters" (Or.inr (by decide)) h,
        excl true false "PhD" "PhD" (Or.inl (by decide)) h,
        excl true false "PhD" "Masters" (Or.inl (by decide)) h⟩,
      fun h => ⟨excl true false "Masters" "PhD" (Or.inl (by decide)) h,
        excl true false "Masters" "Masters" (Or.inl (by decide)) h⟩,
      fun h => excl false false "PhD" "Masters" (Or.inr (by decide)) h⟩
  · have h34 := filter_or_perm (studentPred false "PhD") (studentPred false "Masters")
      (fun s => studentPred_exclusive false false "PhD" "Masters" s (Or.inr (by decide))) db
    have h234 := filter_or_perm (studentPred true "Masters")
      (fun s => studentPred false "PhD" s || studentPred false "Masters" s)
      (fun s hs => by
        have e3 := studentPred_exclusive true false "Masters" "PhD" s (Or.inl (by decide)) hs
        have e4 := studentPred_exclusive true false "Masters" "Masters" s (Or.inl (by decide)) hs
        simp [e3, e4]) db
    have h1234 := filter_or_perm (studentPred true "PhD")
      (fun s => studentPred true "Masters" s ||
        (studentPred false "PhD" s || studentPred false "Masters" s))
      (fun s hs => by
        have e2 := studentPred_exclusive true true "PhD" "Masters" s (Or.inr (by decide)) hs
        have e3 := studentPred_exclusive true false "PhD" "PhD" s (Or.inl (by decide)) hs
        have e4 := studentPred_exclusive true false "PhD" "Masters" s (Or.inl (by decide)) hs
        simp [e2, e3, e4]) db
    have hchain :
        List.Perm
          (current_phd db ++ (current_masters db ++ (former_phd db ++ former_masters db)))
          (db.filter (fun s => studentPred true "PhD" s ||
            (studentPred true "Masters" s ||
              (studentPred false "PhD" s || studentPred false "Masters" s)))) := by
      refine List.Perm.trans ?_ h1234
      apply List.Perm.append_left
      refine List.Perm.trans ?_ h234
      exact List.Perm.append_left _ h34
    have hcov : db.filter (fun s => studentPred true "PhD" s ||
        (studentPred true "Masters" s ||
          (studentPred false "PhD" s || studentPred false "Masters" s))) =
        db.filter coverable :=
      List.filter_congr (fun s _ => studentPred_cover s)
    exact hcov ▸ hchain

/-- C4 witness: the partition statement instantiated at the concrete store
holding the non-coverable MSc student. -/
theorem c4_home_partition_witness :
    (∀ s : Student,
      (s ∈ current_phd studentDbC4 →
        s ∉ current_masters studentDbC4 ∧ s ∉ former_phd studentDbC4 ∧
          s ∉ former_masters studentDbC4) ∧
      (s ∈ current_masters studentDbC4 →
        s ∉ former_phd studentDbC4 ∧ s ∉ former_masters studentDbC4) ∧
      (s ∈ former_phd studentDbC4 → s ∉ former_masters studentDbC4)) ∧
    List.Perm
      (current_phd studentDbC4 ++ (current_masters studentDbC4 ++
        (former_phd studentDbC4 ++ former_masters studentDbC4)))
      (studentDbC4.filter coverable) :=
  c4_home_partition studentDbC4

/-- A deleted file is gone from the directory. -/
theorem not_mem_deleteFile (fs : List String) (f : String) : f ∉ deleteFile fs f := by
  unfold deleteFile
  by_cases h : f ∈ fs
  · rw [if_pos h]
    intro hc
    have h2 := List.of_mem_filter hc
    simp at h2
  · rw [if_neg h]
    exact h

/-- Deletion only removes files. -/
theorem deleteFile_subset (fs : List String) (f : String) : deleteFile fs f ⊆ fs := by
  unfold deleteFile
  by_cases h : f ∈ fs
  · rw [if_pos h]
    exact (List.filter_sublist fs).subset
  · rw [if_neg h]
    exact fun _ hg => hg

/-- Saving a file adds only that file. -/
theorem not_mem_saveFile (fs : List String) (f g : String) (h1 : g ≠ f) (h2 : g ∉ fs) :
    g ∉ saveFile fs f := by
  intro hc
  rcases List.mem_cons.mp hc with hh | hh
  · exact h1 hh
  · exact h2 (List.mem_of_mem_filter hh)

/-- The upload field on an update with a genuinely new file: the
superseded file is deleted, the new one saved, the column updated. -/
theorem populate_upload_eq (old newName : String) (fs : List String)
    (hold : old ≠ "") (hnew : newName ≠ "") :
    imageUploadField_populate_obj false (.fileStorage newName) (some old) fs =
      (some newName, saveFile (deleteFile fs old) newName) := by
  have h1 : (old == "") = false := beq_eq_false_iff_ne.mpr hold
  have h2 : (newName == "") = false := beq_eq_false_iff_ne.mpr hnew
  simp [imageUploadField_populate_obj, strTruthy, h1, h2]

/-- The full Professor update path on a new upload: the upload field
deletes the superseded file and saves the new one; the custom hook — for
which `model.photo` is already the new name, never equal to the form's
`FileStorage` — then deletes the freshly saved file as well. -/
theorem professor_update_eq (old newName : String) (fs : List String)
    (hold : old ≠ "") (hnew : newName ≠ "") :
    professor_update_model false (.fileStorage newName) (some old) fs =
      (some newName, deleteFile (saveFile (deleteFile fs old) newName) newName) := by
  have h2 : (newName == "") = false := beq_eq_false_iff_ne.mpr hnew
  simp [professor_update_model, populate_upload_eq old newName fs hold hnew,
    professor_on_model_change, pyStrNeData, strTruthy, h2]

/-- C5 counterexample: the claim says updates to Student or Project records
never delete superseded photo/image files.  A Student (and likewise a
Project) update uploading `new.png` over the stored `old.png` removes
`old.png` from the upload directory: `ImageUploadField.populate_obj`
deletes the superseded file inside the same save path, with no custom hook
involved. -/
theorem c5_counterexample :
    "old.png" ∈ (["old.png", "keep.png"] : List String) ∧
      "old.png" ∉ (student_update_model false (.fileStorage "new.png")
          (some "old.png") ["old.png", "keep.png"]).2 ∧
      "old.png" ∉ (project_update_model false (.fileStorage "new.png")
          (some "old.png") ["old.png", "keep.png"]).2 := by
  refine ⟨by decide, by decide, by decide⟩

/-- C5 (amended): on an update of a Professor record uploading a new photo
over a stored one, the superseded photo file is deleted from the professor
upload directory — by the upload field's populate step, which runs before
the custom hook; the hook, for which `model.photo` already holds the new
name (never equal to the form's `FileStorage` data), then deletes the
newly saved file too.  Student and Project updates delete the superseded
file in exactly the same populate step: the cleanup asymmetry exists only
in the repository's source (the extra Professor hook), not in the deletion
behaviour. -/
theorem c5_photo_cleanup (old newName : String) (fsP fsS fsPr : List String)
    (hold : old ≠ "") (hnew : newName ≠ "") (hne : newName ≠ old) :
    old ∉ (professor_update_model false (.fileStorage newName) (some old) fsP).2 ∧
      newName ∉ (professor_update_model false (.fileStorage newName) (some old) fsP).2 ∧
      old ∉ (student_update_model false (.fileStorage newName) (some old) fsS).2 ∧
      old ∉ (project_update_model false (.fileStorage newName) (some old) fsPr).2 := by
  have hsym : old ≠ newName := fun h => hne h.symm
  have hprof := professor_update_eq old newName fsP hold hnew
  have hstu : (student_update_model false (.fileStorage newName) (some old) fsS).2 =
      saveFile (deleteFile fsS old) newName := by
    simp [student_update_model, populate_upload_eq old newName fsS hold hnew,
      student_on_model_change]
  have hproj : (project_update_model false (.fileStorage newName) (some old) fsPr).2 =
      saveFile (deleteFile fsPr old) newName := by
    simp [project_update_model, populate_upload_eq old newName fsPr hold hnew,
      project_on_model_change]
  refine ⟨?_, ?_, ?_, ?_⟩
  · rw [hprof]
    intro hc
    exact not_mem_saveFile (deleteFile fsP old) newName old hsym
      (not_mem_deleteFile fsP old) (deleteFile_subset _ _ hc)
  · rw [hprof]
    exact not_mem_deleteFile _ _
  · rw [hstu]
    exact not_mem_saveFile (deleteFile fsS old) newName old hsym (not_mem_deleteFile fsS old)
  · rw [hproj]
    exact not_mem_saveFile (deleteFile fsPr old) newName old hsym (not_mem_deleteFile fsPr old)

/-- C5 witness: a concrete update replacing `old.jpg` by `new.jpg` removes
`old.jpg` everywhere — and, for Professor, the fresh `new.jpg` as well. -/
theorem c5_photo_cleanup_witness :
    "old.jpg" ∉ (professor_update_model false (.fileStorage "new.jpg") (some "old.jpg")
        ["old.jpg", "other.png"]).2 ∧
      "new.jpg" ∉ (professor_update_model false (.fileStorage "new.jpg") (some "old.jpg")
        ["old.jpg", "other.png"]).2 ∧
      "old.jpg" ∉ (student_update_model false (.fileStorage "new.jpg") (some "old.jpg")
        ["s.png"]).2 ∧
      "old.jpg" ∉ (project_update_model false (.fileStorage "new.jpg") (some "old.jpg")
        ["p.png"]).2 :=
  c5_photo_cleanup "old.jpg" "new.jpg" ["old.jpg", "other.png"] ["s.png"] ["p.png"]
    (by decide) (by decide) (by decide)

/-- C6: registering a plaintext password via `set_password` makes the
subsequent `check_password` (the verify step of the login route) succeed on
that password and fail on every different password, in the idealized
collision-free model of the werkzeug salted hash. -/
theorem c6_password_roundtrip (u : AdminUser) (salt p q : String) (hq : q ≠ p) :
    (u.set_password salt p).check_password p = true ∧
      (u.set_password salt p).check_password q = false := by
  constructor
  · simp [AdminUser.set_password, AdminUser.check_password, check_password_hash,
      generate_password_hash]
  · simp only [AdminUser.set_password, AdminUser.check_password, check_password_hash,
      generate_password_hash]
    exact beq_eq_false_iff_ne.mpr hq

/-- C6 witness: the default admin credentials round-trip and a wrong
password is rejected. -/
theorem c6_password_roundtrip_witness :
    ((AdminUser.mk 1 "admin" ⟨"s0", "x"⟩ "Lab Administrator").set_password
        "s1" "changeme123").check_password "changeme123" = true ∧
      ((AdminUser.mk 1 "admin" ⟨"s0", "x"⟩ "Lab Administrator").set_password
        "s1" "changeme123").check_password "wrongpass" = false :=
  c6_password_roundtrip (AdminUser.mk 1 "admin" ⟨"s0", "x"⟩ "Lab Administrator")
    "s1" "changeme123" "wrongpass" (by decide)

/-- C7: a failed POST to `/admin-login` that supplies both fields produces
the same user-visible outcome — the login template with the single flash
"Invalid username or password. Please try again." — whether the username
matches no AdminUser or the username exists and the password is wrong: the
two runs are indistinguishable. -/
theorem c7_login_failure_indistinguishable
    (db1 db2 : List AdminUser) (req1 req2 : LoginRequest) (a : AdminUser)
    (hp1 : req1.isPost = true) (hp2 : req2.isPost = true)
    (hu1 : strTruthy req1.username = true) (hw1 : strTruthy req1.password = true)
    (hu2 : strTruthy req2.username = true) (hw2 : strTruthy req2.password = true)
    (hnone : findUser db1 (req1.username.getD "") = none)
    (hfound : findUser db2 (req2.username.getD "") = some a)
    (hwrong : a.check_password (req2.password.getD "") = false) :
    admin_login false db1 req1 = admin_login false db2 req2 ∧
      admin_login false db1 req1 =
        .render "admin_login.html"
          [("error", "Invalid username or password. Please try again.")] := by
  have h1 : admin_login false db1 req1 =
      .render "admin_login.html"
        [("error", "Invalid username or password. Please try again.")] := by
    simp [admin_login, hp1, hu1, hw1, hnone]
  have h2 : admin_login false db2 req2 =
      .render "admin_login.html"
        [("error", "Invalid username or password. Please try again.")] := by
    simp [admin_login, hp2, hu2, hw2, hfound, hwrong]
  exact ⟨h1.trans h2.symm, h1⟩

/-- C7 witness: an unknown username and a known username with a wrong
password yield the identical failure response. -/
theorem c7_login_failure_indistinguishable_witness :
    admin_login false [] ⟨true, some "ghost", some "pw", none⟩ =
        admin_login false [AdminUser.mk 1 "admin" ⟨"s1", "changeme123"⟩ "Lab Administrator"]
          ⟨true, some "admin", some "wrongpass", none⟩ ∧
      admin_login false [] ⟨true, some "ghost", some "pw", none⟩ =
        .render "admin_login.html"
          [("error", "Invalid username or password. Please try again.")] :=
  c7_login_failure_indistinguishable []
    [AdminUser.mk 1 "admin" ⟨"s1", "changeme123"⟩ "Lab Administrator"]
    ⟨true, some "ghost", some "pw", none⟩ ⟨true, some "admin", some "wrongpass", none⟩
    (AdminUser.mk 1 "admin" ⟨"s1", "changeme123"⟩ "Lab Administrator")
    rfl rfl (by decide) (by decide) (by decide) (by decide) rfl rfl (by decide)

/-- C8: every unauthenticated request to an admin CRUD view or to the admin
index is answered by a redirect to the login route carrying the originally
requested URL as the `next` destination, and no admin content is served. -/
theorem c8_unauthenticated_redirect (authenticated : Bool) (url body statsPage : String)
    (h : authenticated = false) :
    adminViewHandle authenticated url body = .redirect (loginRedirectUrl url) ∧
      adminIndexHandle authenticated url statsPage = .redirect (loginRedirectUrl url) ∧
      (∀ c, adminViewHandle authenticated url body ≠ .content c) ∧
      (∀ c, adminIndexHandle authenticated url statsPage ≠ .content c) := by
  subst h
  refine ⟨rfl, rfl, ?_, ?_⟩
  · intro c hc
    simp [adminViewHandle, is_accessible, inaccessible_callback] at hc
  · intro c hc
    simp [adminIndexHandle, is_accessible, inaccessible_callback] at hc

/-- C8 witness: a concrete unauthenticated request to `/admin/student/` is
redirected to the login flow with that URL as `next`. -/
theorem c8_unauthenticated_redirect_witness :
    adminViewHandle false "/admin/student/" "student list" =
        .redirect (loginRedirectUrl "/admin/student/") ∧
      adminIndexHandle false "/admin/student/" "stats" =
        .redirect (loginRedirectUrl "/admin/student/") ∧
      (∀ c, adminViewHandle false "/admin/student/" "student list" ≠ .content c) ∧
      (∀ c, adminIndexHandle false "/admin/student/" "stats" ≠ .content c) :=
  c8_unauthenticated_redirect false "/admin/student/" "student list" "stats" rfl

/-- C9: for every database state the featured-publications list of `home()`
contains only publications with the `is_featured` flag, has at most five
elements, and is ordered by year descending (NULL years, which SQLite sorts
below every value, coming last). -/
theorem c9_featured_publications (db : List Publication) :
    (∀ p, p ∈ featured_publications db → p.is_featured = true) ∧
      (featured_publications db).length ≤ 5 ∧
      List.Sorted pubDescOrder (featured_publications db) := by
  refine ⟨?_, ?_, ?_⟩
  · intro p hp
    have h1 : p ∈ List.insertionSort pubDescOrder (db.filter (fun q => q.is_featured)) :=
      List.take_subset 5 _ hp
    have h2 : p ∈ db.filter (fun q => q.is_featured) :=
      (List.perm_insertionSort pubDescOrder _).mem_iff.mp h1
    exact List.of_mem_filter h2
  · simp only [featured_publications, List.length_take]
    exact min_le_left _ _
  · exact List.Pairwise.sublist (List.take_sublist 5 _)
      (List.sorted_insertionSort pubDescOrder _)

/-- Concrete store for the C9 witness: three featured publications with
years 2019, 2024 and NULL, plus one unfeatured publication. -/
def pubDbC9 : List Publication :=
  [{ id := 1, bibtex := "a", year := some 2019, is_featured := true },
   { id := 2, bibtex := "b", year := some 2024, is_featured := true },
   { id := 3, bibtex := "c", year := none, is_featured := true },
   { id := 4, bibtex := "d", year := some 2030, is_featured := false }]

/-- C9 witness: the featured-publications properties at the concrete
store. -/
theorem c9_featured_publications_witness :
    (∀ p, p ∈ featured_publications pubDbC9 → p.is_featured = true) ∧
      (featured_publications pubDbC9).length ≤ 5 ∧
      List.Sorted pubDescOrder (featured_publications pubDbC9) :=
  c9_featured_publications pubDbC9

/-- C10 witness: a previously stored url is replaced by the entry's url. -/
theorem c10_url_overwrite_witness :
    (parse_bibtex
        { id := 3, bibtex := "raw", url := some "http://old.example" }
        (.ok ([("year", "2024"), ("url", "http://new.example")] :: []))).url =
      some (entryGet [("year", "2024"), ("url", "http://new.example")] "url" "") :=
  c10_url_overwrite
    { id := 3, bibtex := "raw", url := some "http://old.example" }
    [("year", "2024"), ("url", "http://new.example")] []
    (Or.inr ⟨"2024", 2024, rfl, by decide⟩)

end DadlSite
